import Mathlib

/-!
Verification of the credit-driven progression ledger.

The repository contains the JavaScript client (src/index.js): instruction
encoders, record readers (checkUserCredits / checkGameConfig) and the
proof-of-concept test drivers. Those are embedded here directly from the
source. The on-chain instruction handlers (create-economy, create-user,
mint-credits, user-level-up) are not part of src/; they are modelled from
the specification (sections 3, 4 and 7 of spec.md), which describes the
required validation and mutation logic precisely.

Machine integers are modelled as Nat with explicit bounds: a u32 field is
a Nat kept below 2^32, and checked arithmetic rejects instead of wrapping.
-/

/-- Modulus of an unsigned 32-bit integer. -/
def U32_MOD : Nat := 4294967296

/-- Modelled from the spec: discriminator tag marking a slot as an
EconomyConfig record (the concrete value of the tag is unspecified by the
spec; only its distinctness matters). -/
def ECON_TAG : Nat := 1

/-- Modelled from the spec: discriminator tag marking a slot as a
UserProgression record. -/
def USER_TAG : Nat := 2

/-- Modelled from the spec (section 4.1): derived addresses. An
EconomyConfig slot is derived from the creator identity plus the fixed
economy label; a UserProgression slot is derived from the EconomyConfig
address, the authority identity and the fixed user label. Distinct
constructors model collision resistance between the two derivations, and
constructor injectivity models determinism and per-creator injectivity. -/
inductive Addr where
  | econSlot (creator : Nat)
  | userSlot (economyRef : Addr) (authority : Nat)
deriving DecidableEq, Repr

/-- Modelled from the spec (section 3): the EconomyConfig record. -/
structure EconomyConfig where
  tag : Nat
  credits_per_level : Nat
  creator : Nat
deriving DecidableEq, Repr

/-- Modelled from the spec (section 3): the UserProgression record.
credits is a u32 balance, level a u8 bounded by MAX_LEVEL. -/
structure UserProgression where
  tag : Nat
  authority : Nat
  economy_ref : Addr
  credits : Nat
  level : Nat
deriving DecidableEq, Repr

/-- Modelled from the spec (section 7): the error taxonomy. Each rejection
carries a distinguishing kind: structural (slot already initialized,
missing slot, wrong type tag), authorization, linkage, arithmetic
(overflow on credit, degenerate zero-cost economy), and the policy errors
(capped at max level, zero levels affordable, insufficient funds). -/
inductive ProgErr where
  | structuralError
  | authorizationError
  | linkageError
  | overflowError
  | degenerateEconomy
  | maxLevelReached
  | zeroLevels
  | insufficientFunds
deriving DecidableEq, Repr

/-- Modelled from the spec (section 9): the persisted state is an arena of
records indexed by derived address. -/
inductive Slot where
  | econ (e : EconomyConfig)
  | user (u : UserProgression)
deriving DecidableEq

/-- The record store: a partial map from derived addresses to records. -/
def Store : Type := Addr → Option Slot

/-- Modelled from the spec (section 4.2): create-economy. The handler is
absent from src/ (only its caller encodeCreateGameConfig and the test
drivers are present). Rejects when the slot derived for the signer is
already initialized, or when credits_per_level is zero (degenerate
economy); otherwise initializes the EconomyConfig with creator = signer. -/
def create_economy (s : Store) (signer : Nat) (cpl : Nat) : Except ProgErr Store :=
  match s (Addr.econSlot signer) with
  | some _ => .error .structuralError
  | none =>
    if cpl = 0 then .error .degenerateEconomy
    else .ok (fun a =>
      if a = Addr.econSlot signer then some (Slot.econ ⟨ECON_TAG, cpl, signer⟩) else s a)

/-- Modelled from the spec (section 4.3): create-user. The handler is
absent from src/. Requires an initialized EconomyConfig at the supplied
address with the correct tag, and an uninitialized slot at the address
derived for (economy, signer); initializes the UserProgression with
credits = 0 and level = 0, bound to the supplied economy. -/
def create_user (s : Store) (econAddr : Addr) (signer : Nat) : Except ProgErr Store :=
  match s econAddr with
  | some (Slot.econ e) =>
    if e.tag ≠ ECON_TAG then .error .structuralError
    else
      match s (Addr.userSlot econAddr signer) with
      | some _ => .error .structuralError
      | none => .ok (fun a =>
          if a = Addr.userSlot econAddr signer then
            some (Slot.user ⟨USER_TAG, signer, econAddr, 0, 0⟩)
          else s a)
  | _ => .error .structuralError

/-- Modelled from the spec (section 4.4): mint-credits. The handler is
absent from src/ (only its caller encodeMintCreditsToUser is present).
Checks record tags, then that the signer is the economy creator, then the
linkage of the target user to the supplied economy, then performs the
checked u32 addition, rejecting with an arithmetic-overflow error instead
of wrapping. -/
def mint_credits (econAddr : Addr) (econ : EconomyConfig) (user : UserProgression)
    (signer : Nat) (amount : Nat) : Except ProgErr UserProgression :=
  if econ.tag ≠ ECON_TAG then .error .structuralError
  else if user.tag ≠ USER_TAG then .error .structuralError
  else if signer ≠ econ.creator then .error .authorizationError
  else if user.economy_ref ≠ econAddr then .error .linkageError
  else if U32_MOD ≤ user.credits + amount then .error .overflowError
  else .ok { user with credits := user.credits + amount }

/-- Modelled from the spec (section 4.5): user-level-up. The handler is
absent from src/ (only its caller encodeUserLevelUp is present). After the
tag and authorization checks, the transition follows the required order:
1. linkage check against the economy bound to the user;
2. ceiling check rejecting at level = MAX_LEVEL before any debit;
3. levels_gained = requested_burn / credits_per_level (integer division),
   reject when zero, clamp to the remaining headroom below MAX_LEVEL and
   recompute actual_cost;
4. checked debit rejecting with insufficient funds when
   credits < actual_cost (never a wrapping subtraction);
5. atomic commit of both fields. -/
def user_level_up (maxLevel : Nat) (econAddr : Addr) (econ : EconomyConfig)
    (user : UserProgression) (signer : Nat) (requested_burn : Nat) :
    Except ProgErr UserProgression :=
  if econ.tag ≠ ECON_TAG then .error .structuralError
  else if user.tag ≠ USER_TAG then .error .structuralError
  else if signer ≠ user.authority then .error .authorizationError
  else if econAddr ≠ user.economy_ref then .error .linkageError
  else if user.level = maxLevel then .error .maxLevelReached
  else
    let levels0 := requested_burn / econ.credits_per_level
    if levels0 = 0 then .error .zeroLevels
    else
      let levels := min levels0 (maxLevel - user.level)
      let cost := levels * econ.credits_per_level
      if user.credits < cost then .error .insufficientFunds
      else .ok { user with credits := user.credits - cost, level := user.level + levels }

/-- The actual cost a level-up request is charged: levels gained by integer
division, clamped to the headroom below the level cap, times the unit
cost. (Mirrors step 3 of user_level_up.) -/
def actualCost (maxLevel cpl level burn : Nat) : Nat :=
  min (burn / cpl) (maxLevel - level) * cpl

/-- The state of a user after attempting a mint: the new record on
success, the unchanged record on rejection (rejections have no effect). -/
def mintStep (econAddr : Addr) (econ : EconomyConfig) (signer : Nat) (amount : Nat)
    (user : UserProgression) : UserProgression :=
  match mint_credits econAddr econ user signer amount with
  | .ok u => u
  | .error _ => user

/-- Little-endian byte decomposition of a 32-bit value, as written by
buf.writeUInt32LE in src/index.js. -/
def le32 (n : Nat) : List Nat :=
  [n % 256, n / 256 % 256, n / 65536 % 256, n / 16777216 % 256]

/-- Recomposition of four little-endian bytes into the value they encode. -/
def decodeLE32 (l : List Nat) : Nat :=
  match l with
  | [b0, b1, b2, b3] => b0 + 256 * b1 + 65536 * b2 + 16777216 * b3
  | _ => 0

/-- Embeds encodeCreateGameConfig from src/index.js: a 2-byte buffer,
variant tag 0 then the u8 credits_per_level. Buffer.writeUInt8 throws on
an out-of-range value, modelled as none. -/
def encodeCreateGameConfig (creditsPerLevel : Nat) : Option (List Nat) :=
  if creditsPerLevel < 256 then some [0, creditsPerLevel] else none

/-- Embeds encodeCreateUser from src/index.js: the single variant byte 1. -/
def encodeCreateUser : List Nat := [1]

/-- Embeds encodeMintCreditsToUser from src/index.js: a 5-byte buffer,
variant tag 2 then the u32 credits in little-endian. writeUInt32LE throws
on an out-of-range value, modelled as none. -/
def encodeMintCreditsToUser (credits : Nat) : Option (List Nat) :=
  if credits < U32_MOD then some (2 :: le32 credits) else none

/-- Embeds encodeUserLevelUp from src/index.js: a 5-byte buffer, variant
tag 3 then the u32 credits_to_burn in little-endian. -/
def encodeUserLevelUp (creditsToBurn : Nat) : Option (List Nat) :=
  if creditsToBurn < U32_MOD then some (3 :: le32 creditsToBurn) else none

/-- The User class of src/index.js as decoded by borsh from UserSchema:
fields accountType (u8), authority (32 raw bytes), gameConfig (32 raw
bytes), credits (u32), level (u8). -/
structure User where
  accountType : Nat
  authority : List Nat
  gameConfig : List Nat
  credits : Nat
  level : Nat
deriving DecidableEq, Repr

/-- The GameConfig class of src/index.js as decoded by borsh from
GameConfigSchema: fields account_type (u8) and credits_per_level (u8). -/
structure GameConfig where
  account_type : Nat
  credits_per_level : Nat
deriving DecidableEq, Repr

/-- Borsh read of one byte; fails when the data is exhausted. -/
def readU8 (data : List Nat) : Option (Nat × List Nat) :=
  match data with
  | [] => none
  | b :: rest => some (b, rest)

/-- Borsh read of a fixed-size byte array; fails when too little data
remains. -/
def readBytes (n : Nat) (data : List Nat) : Option (List Nat × List Nat) :=
  if n ≤ data.length then some (data.take n, data.drop n) else none

/-- Borsh read of a u32 in little-endian; fails when fewer than four bytes
remain. -/
def readU32LE (data : List Nat) : Option (Nat × List Nat) :=
  match data with
  | b0 :: b1 :: b2 :: b3 :: rest => some (b0 + 256 * b1 + 65536 * b2 + 16777216 * b3, rest)
  | _ => none

/-- Borsh deserialization of a User per UserSchema in src/index.js under
deserializeUnchecked semantics: fields are read in declaration order and
trailing bytes are ignored. -/
def deserializeUser (data : List Nat) : Option User :=
  match readU8 data with
  | none => none
  | some (accountType, d1) =>
    match readBytes 32 d1 with
    | none => none
    | some (authority, d2) =>
      match readBytes 32 d2 with
      | none => none
      | some (gameConfig, d3) =>
        match readU32LE d3 with
        | none => none
        | some (credits, d4) =>
          match readU8 d4 with
          | none => none
          | some (level, _) => some ⟨accountType, authority, gameConfig, credits, level⟩

/-- Borsh deserialization of a GameConfig per GameConfigSchema in
src/index.js under deserializeUnchecked semantics. -/
def deserializeGameConfig (data : List Nat) : Option GameConfig :=
  match readU8 data with
  | none => none
  | some (account_type, d1) =>
    match readU8 d1 with
    | none => none
    | some (credits_per_level, _) => some ⟨account_type, credits_per_level⟩

/-- Embeds checkUserCredits from src/index.js: getAccountInfo yields
either no account (none) or its data bytes; a missing account throws the
error message, otherwise the data (stripped of the 8-byte discriminator
when anchor is set) is borsh-decoded; a decode failure propagates as an
error thrown by the borsh library. -/
def checkUserCredits (accountInfo : Option (List Nat)) (anchor : Bool) :
    Except String User :=
  match accountInfo with
  | none => .error "User account not found"
  | some data =>
    match deserializeUser (if anchor then data.drop 8 else data) with
    | some u => .ok u
    | none => .error "borsh deserialization error"

/-- Embeds checkGameConfig from src/index.js, analogous to
checkUserCredits. -/
def checkGameConfig (accountInfo : Option (List Nat)) (anchor : Bool) :
    Except String GameConfig :=
  match accountInfo with
  | none => .error "Game config account not found"
  | some data =>
    match deserializeGameConfig (if anchor then data.drop 8 else data) with
    | some g => .ok g
    | none => .error "borsh deserialization error"

/-- Whether a handler result is a rejection. -/
def isRejected (r : Except ProgErr UserProgression) : Bool :=
  match r with
  | .ok _ => false
  | .error _ => true

/-- Decoding the little-endian bytes of a 32-bit value recovers it. -/
lemma le32_decode (c : Nat) (h : c < U32_MOD) : decodeLE32 (le32 c) = c := by
  simp only [le32, decodeLE32, U32_MOD] at *
  omega

/-- C1: whenever a level-up request reaches the cost computation (record
tags valid, signer authorized, linkage correct, not at the level cap) and
the credit balance is strictly below the computed actual cost, the
operation rejects with the insufficient-funds error. The rejection carries
no successor record, so the credits field is untouched and in particular
never wraps toward 2^32. -/
theorem levelup_insufficient_funds_rejects
    (maxLevel : Nat) (econAddr : Addr) (econ : EconomyConfig)
    (user : UserProgression) (signer : Nat) (burn : Nat)
    (htag : econ.tag = ECON_TAG) (hutag : user.tag = USER_TAG)
    (hsig : signer = user.authority) (hlink : econAddr = user.economy_ref)
    (hcap : user.level ≠ maxLevel)
    (hfunds : user.credits < actualCost maxLevel econ.credits_per_level user.level burn) :
    user_level_up maxLevel econAddr econ user signer burn = .error .insufficientFunds := by
  have h0 : burn / econ.credits_per_level ≠ 0 := by
    intro h
    rw [actualCost, h] at hfunds
    simp at hfunds
  have hfunds2 : user.credits <
      min (burn / econ.credits_per_level) (maxLevel - user.level) * econ.credits_per_level := by
    simpa [actualCost] using hfunds
  simp [user_level_up, htag, hutag, hsig, hlink, hcap, h0, hfunds2]

/-- C1 witness: an economy at 10 credits per level, a user with 5 credits
at level 0, a burn request of 30: actual cost 30 exceeds the balance. -/
theorem levelup_insufficient_funds_witness :
    user_level_up 100 (Addr.econSlot 0) ⟨ECON_TAG, 10, 0⟩
      ⟨USER_TAG, 7, Addr.econSlot 0, 5, 0⟩ 7 30 = .error .insufficientFunds :=
  levelup_insufficient_funds_rejects 100 (Addr.econSlot 0) ⟨ECON_TAG, 10, 0⟩
    ⟨USER_TAG, 7, Addr.econSlot 0, 5, 0⟩ 7 30 rfl rfl rfl rfl (by decide) (by decide)

/-- C2: a level-up request supplying an EconomyConfig address different
from the economy_ref bound in the user record rejects with the linkage
error, whatever that other economy holds in credits_per_level; no
successor record is produced, so credits and level are unchanged. -/
theorem levelup_wrong_economy_rejects
    (maxLevel : Nat) (econAddr : Addr) (econ : EconomyConfig)
    (user : UserProgression) (signer : Nat) (burn : Nat)
    (htag : econ.tag = ECON_TAG) (hutag : user.tag = USER_TAG)
    (hsig : signer = user.authority) (hlink : econAddr ≠ user.economy_ref) :
    user_level_up maxLevel econAddr econ user signer burn = .error .linkageError := by
  simp [user_level_up, htag, hutag, hsig, hlink]

/-- C2 witness: a user bound to the economy of creator 1 presented with
the economy of creator 2 (which charges only 1 credit per level). -/
theorem levelup_wrong_economy_witness :
    user_level_up 100 (Addr.econSlot 2) ⟨ECON_TAG, 1, 2⟩
      ⟨USER_TAG, 7, Addr.econSlot 1, 50, 0⟩ 7 30 = .error .linkageError :=
  levelup_wrong_economy_rejects 100 (Addr.econSlot 2) ⟨ECON_TAG, 1, 2⟩
    ⟨USER_TAG, 7, Addr.econSlot 1, 50, 0⟩ 7 30 rfl rfl rfl (by decide)

/-- C3: a level-up request issued while the user level equals MAX_LEVEL
rejects with the max-level error before the cost computation and debit are
reached; no successor record is produced, so credits and level are
unchanged and no spending occurs at the cap. -/
theorem levelup_at_max_level_rejects
    (maxLevel : Nat) (econAddr : Addr) (econ : EconomyConfig)
    (user : UserProgression) (signer : Nat) (burn : Nat)
    (htag : econ.tag = ECON_TAG) (hutag : user.tag = USER_TAG)
    (hsig : signer = user.authority) (hlink : econAddr = user.economy_ref)
    (hmax : user.level = maxLevel) :
    user_level_up maxLevel econAddr econ user signer burn = .error .maxLevelReached := by
  simp [user_level_up, htag, hutag, hsig, hlink, hmax]

/-- C3 witness: a user at the cap of 100 holding plenty of credits; a burn
request of 1000 is rejected. -/
theorem levelup_at_max_level_witness :
    user_level_up 100 (Addr.econSlot 0) ⟨ECON_TAG, 10, 0⟩
      ⟨USER_TAG, 7, Addr.econSlot 0, 999000, 100⟩ 7 1000 = .error .maxLevelReached :=
  levelup_at_max_level_rejects 100 (Addr.econSlot 0) ⟨ECON_TAG, 10, 0⟩
    ⟨USER_TAG, 7, Addr.econSlot 0, 999000, 100⟩ 7 1000 rfl rfl rfl rfl rfl

/-- C5: a level-up request burning strictly less than one unit of
credits_per_level is rejected on every control path (integer division
yields zero levels, and every earlier check also only rejects); it never
succeeds as a no-op, so credits and level are unchanged. -/
theorem levelup_below_unit_cost_rejects
    (maxLevel : Nat) (econAddr : Addr) (econ : EconomyConfig)
    (user : UserProgression) (signer : Nat) (burn : Nat)
    (hburn : burn < econ.credits_per_level) :
    isRejected (user_level_up maxLevel econAddr econ user signer burn) = true := by
  have h0 : burn / econ.credits_per_level = 0 := Nat.div_eq_of_lt hburn
  simp only [user_level_up, h0, apply_ite isRejected]
  simp [isRejected]

/-- C5 witness: burning 5 in an economy charging 10 per level. -/
theorem levelup_below_unit_cost_witness :
    isRejected (user_level_up 100 (Addr.econSlot 0) ⟨ECON_TAG, 10, 0⟩
      ⟨USER_TAG, 7, Addr.econSlot 0, 50, 0⟩ 7 5) = true :=
  levelup_below_unit_cost_rejects 100 (Addr.econSlot 0) ⟨ECON_TAG, 10, 0⟩
    ⟨USER_TAG, 7, Addr.econSlot 0, 50, 0⟩ 7 5 (by decide)

/-- C6: a mint-credits request whose checked u32 addition would exceed the
u32 range rejects with the arithmetic-overflow error instead of wrapping
modulo 2^32; no successor record is produced, so the user state is
unchanged. -/
theorem mint_overflow_rejects
    (econAddr : Addr) (econ : EconomyConfig) (user : UserProgression)
    (signer : Nat) (amount : Nat)
    (htag : econ.tag = ECON_TAG) (hutag : user.tag = USER_TAG)
    (hsig : signer = econ.creator) (hlink : user.economy_ref = econAddr)
    (hover : U32_MOD ≤ user.credits + amount) :
    mint_credits econAddr econ user signer amount = .error .overflowError := by
  simp [mint_credits, htag, hutag, hsig, hlink, hover]

/-- C6 witness: a balance of 2^32 - 1 plus a mint of 1 overflows. -/
theorem mint_overflow_witness :
    mint_credits (Addr.econSlot 0) ⟨ECON_TAG, 10, 0⟩
      ⟨USER_TAG, 7, Addr.econSlot 0, 4294967295, 0⟩ 0 1 = .error .overflowError :=
  mint_overflow_rejects (Addr.econSlot 0) ⟨ECON_TAG, 10, 0⟩
    ⟨USER_TAG, 7, Addr.econSlot 0, 4294967295, 0⟩ 0 1 rfl rfl rfl rfl (by decide)

/-- C7: once create-economy has initialized the slot derived for a
creator, any further create-economy call by the same creator rejects with
the structural error (slot already initialized) and the slot still holds
the record written by the first call — re-creation never overwrites. -/
theorem create_economy_not_reentrant
    (s : Store) (signer cpl cpl2 : Nat) (s2 : Store)
    (h : create_economy s signer cpl = .ok s2) :
    create_economy s2 signer cpl2 = .error .structuralError ∧
    s2 (Addr.econSlot signer) = some (Slot.econ ⟨ECON_TAG, cpl, signer⟩) := by
  unfold create_economy at h
  cases hs : s (Addr.econSlot signer) with
  | some sl => rw [hs] at h; exact absurd h (by simp)
  | none =>
    rw [hs] at h
    by_cases hcpl : cpl = 0
    · simp [hcpl] at h
    · simp only [if_neg hcpl, Except.ok.injEq] at h
      have hslot : s2 (Addr.econSlot signer) = some (Slot.econ ⟨ECON_TAG, cpl, signer⟩) := by
        rw [← h]
        simp
      refine ⟨?_, hslot⟩
      unfold create_economy
      rw [hslot]

/-- The empty record store. -/
def emptyStore : Store := fun _ => none

/-- The store holding exactly the economy created by creator 0 at 10
credits per level. -/
def store1 : Store := fun a =>
  if a = Addr.econSlot 0 then some (Slot.econ ⟨ECON_TAG, 10, 0⟩) else none

/-- C7 witness: creating the economy of creator 0 in the empty store
succeeds and yields store1; re-creating it fails structurally and the
slot keeps the first record. -/
theorem create_economy_not_reentrant_witness :
    create_economy store1 0 5 = .error .structuralError ∧
    store1 (Addr.econSlot 0) = some (Slot.econ ⟨ECON_TAG, 10, 0⟩) :=
  create_economy_not_reentrant emptyStore 0 10 5 store1 rfl

/-- EconomyConfig of Scenario B: 10 credits per level, creator 3. -/
def econB : EconomyConfig := ⟨ECON_TAG, 10, 3⟩

/-- UserProgression of Scenario B: 50 credits at level 0, bound to the
economy of creator 3, authority 7. -/
def userB : UserProgression := ⟨USER_TAG, 7, Addr.econSlot 3, 50, 0⟩

/-- C4 counterexample: with credits_per_level 10, 50 credits at level 0
and requested_burn 70, the level-up transition of the spec (section 4.5)
computes levels_gained = 70 / 10 = 7 and actual_cost = 70 from the
requested burn, finds 50 < 70 at the checked debit, and rejects with
insufficient funds; it does not grant floor(50 / 10) = 5 levels leaving
credits 0 and level 5. -/
theorem levelup_scenarioB_counterexample :
    user_level_up 100 (Addr.econSlot 3) econB userB 7 70 = .error .insufficientFunds ∧
    user_level_up 100 (Addr.econSlot 3) econB userB 7 70 ≠
      .ok ⟨USER_TAG, 7, Addr.econSlot 3, 0, 5⟩ := by
  have h : user_level_up 100 (Addr.econSlot 3) econB userB 7 70 =
      .error .insufficientFunds := rfl
  exact ⟨h, by rw [h]; exact fun hc => Except.noConfusion hc⟩

/-- C4 amended: in an economy with credits_per_level 10, a user holding 50
credits at level 0 who requests a burn of 70 is rejected with the
insufficient-funds error (7 levels would cost 70, exceeding the balance of
50); credits stay 50 and level stays 0. -/
theorem levelup_scenarioB_rejects :
    user_level_up 100 (Addr.econSlot 3) econB userB 7 70 = .error .insufficientFunds :=
  rfl

/-- EconomyConfig used for the mint additivity analysis: creator 4. -/
def econM : EconomyConfig := ⟨ECON_TAG, 10, 4⟩

/-- UserProgression near the top of the u32 range: 2^32 - 2 credits. -/
def userM : UserProgression := ⟨USER_TAG, 9, Addr.econSlot 4, 4294967294, 0⟩

/-- C8 counterexample: amounts 1 and 1 have a sum well below 2^32, yet on
a user holding 2^32 - 2 credits the first mint of 1 succeeds (reaching
2^32 - 1) and the second rejects on overflow, leaving 2^32 - 1, while a
single mint of 2 rejects outright and leaves 2^32 - 2: the two final
balances differ. -/
theorem mint_additivity_counterexample :
    1 + 1 < U32_MOD ∧
    (mintStep (Addr.econSlot 4) econM 4 1
      (mintStep (Addr.econSlot 4) econM 4 1 userM)).credits = 4294967295 ∧
    (mintStep (Addr.econSlot 4) econM 4 2 userM).credits = 4294967294 ∧
    (mintStep (Addr.econSlot 4) econM 4 1
        (mintStep (Addr.econSlot 4) econM 4 1 userM)).credits ≠
      (mintStep (Addr.econSlot 4) econM 4 2 userM).credits := by
  refine ⟨by norm_num [U32_MOD], rfl, rfl, by decide⟩

/-- C8 amended: when the mints are authorized and correctly linked and the
starting balance plus amount1 plus amount2 stays below 2^32, minting
amount1 then amount2 yields the same user record as a single mint of
amount1 + amount2. -/
theorem mint_additivity
    (econAddr : Addr) (econ : EconomyConfig) (user : UserProgression)
    (signer : Nat) (a1 a2 : Nat)
    (htag : econ.tag = ECON_TAG) (hutag : user.tag = USER_TAG)
    (hsig : signer = econ.creator) (hlink : user.economy_ref = econAddr)
    (hsum : user.credits + a1 + a2 < U32_MOD) :
    mintStep econAddr econ signer a2 (mintStep econAddr econ signer a1 user) =
      mintStep econAddr econ signer (a1 + a2) user := by
  have h1 : ¬ U32_MOD ≤ user.credits + a1 := by omega
  have h2 : ¬ U32_MOD ≤ user.credits + a1 + a2 := by omega
  have h3 : ¬ U32_MOD ≤ user.credits + (a1 + a2) := by omega
  simp [mintStep, mint_credits, htag, hutag, hsig, hlink, h1, h2, h3, Nat.add_assoc]

/-- C8 witness: on a fresh user, minting 1 then 2 equals minting 3. -/
theorem mint_additivity_witness :
    mintStep (Addr.econSlot 4) econM 4 2
        (mintStep (Addr.econSlot 4) econM 4 1 ⟨USER_TAG, 9, Addr.econSlot 4, 0, 0⟩) =
      mintStep (Addr.econSlot 4) econM 4 3 ⟨USER_TAG, 9, Addr.econSlot 4, 0, 0⟩ :=
  mint_additivity (Addr.econSlot 4) econM ⟨USER_TAG, 9, Addr.econSlot 4, 0, 0⟩ 4 1 2
    rfl rfl rfl rfl (by norm_num [U32_MOD])

/-- C9: the record readers reject a missing account with the exact error
message of src/index.js and never substitute a default record; when the
account exists and its (possibly anchor-stripped) data borsh-decodes, they
return exactly the decoded record. -/
theorem check_readers_spec :
    (∀ anchor, checkUserCredits none anchor = .error "User account not found") ∧
    (∀ anchor, checkGameConfig none anchor = .error "Game config account not found") ∧
    (∀ data anchor u, deserializeUser (if anchor then data.drop 8 else data) = some u →
      checkUserCredits (some data) anchor = .ok u) ∧
    (∀ data anchor g, deserializeGameConfig (if anchor then data.drop 8 else data) = some g →
      checkGameConfig (some data) anchor = .ok g) := by
  refine ⟨fun anchor => rfl, fun anchor => rfl, ?_, ?_⟩
  · intro data anchor u h
    simp [checkUserCredits, h]
  · intro data anchor g h
    simp [checkGameConfig, h]

/-- A well-formed 70-byte user account image: accountType 5, authority of
32 bytes equal to 1, gameConfig of 32 bytes equal to 2, credits 50
(little-endian), level 3. -/
def userBytes : List Nat :=
  5 :: (List.replicate 32 1 ++ List.replicate 32 2 ++ [50, 0, 0, 0, 3])

/-- C9 witness: the readers at a missing account and at concrete decodable
images. -/
theorem check_readers_witness :
    checkUserCredits none false = .error "User account not found" ∧
    checkGameConfig none false = .error "Game config account not found" ∧
    checkUserCredits (some userBytes) false =
      .ok ⟨5, List.replicate 32 1, List.replicate 32 2, 50, 3⟩ ∧
    checkGameConfig (some [1, 10]) false = .ok ⟨1, 10⟩ :=
  ⟨check_readers_spec.1 false, check_readers_spec.2.1 false,
   check_readers_spec.2.2.1 userBytes false _ (by decide),
   check_readers_spec.2.2.2 [1, 10] false _ (by decide)⟩

/-- C10: each instruction encoder is deterministic with a fixed-size
image (2, 1, 5 and 5 bytes) opening with its distinct variant tag (0, 1,
2, 3); the u32 arguments occupy the four following bytes in little-endian
order (decoding them recovers the argument); and the encodings of two
different operations are never equal. -/
theorem encoders_unambiguous (cpl c b : Nat)
    (hcpl : cpl < 256) (hc : c < U32_MOD) (hb : b < U32_MOD) :
    (encodeCreateGameConfig cpl = some [0, cpl] ∧ encodeCreateUser = [1] ∧
     encodeMintCreditsToUser c = some (2 :: le32 c) ∧
     encodeUserLevelUp b = some (3 :: le32 b)) ∧
    ([0, cpl].length = 2 ∧ encodeCreateUser.length = 1 ∧
     (2 :: le32 c).length = 5 ∧ (3 :: le32 b).length = 5 ∧
     decodeLE32 (le32 c) = c ∧ decodeLE32 (le32 b) = b) ∧
    (encodeCreateGameConfig cpl ≠ some encodeCreateUser ∧
     encodeCreateGameConfig cpl ≠ encodeMintCreditsToUser c ∧
     encodeCreateGameConfig cpl ≠ encodeUserLevelUp b ∧
     some encodeCreateUser ≠ encodeMintCreditsToUser c ∧
     some encodeCreateUser ≠ encodeUserLevelUp b ∧
     encodeMintCreditsToUser c ≠ encodeUserLevelUp b) := by
  have e0 : encodeCreateGameConfig cpl = some [0, cpl] := by
    simp [encodeCreateGameConfig, hcpl]
  have e2 : encodeMintCreditsToUser c = some (2 :: le32 c) := by
    simp [encodeMintCreditsToUser, hc]
  have e3 : encodeUserLevelUp b = some (3 :: le32 b) := by
    simp [encodeUserLevelUp, hb]
  refine ⟨⟨e0, rfl, e2, e3⟩,
    ⟨rfl, rfl, rfl, rfl, le32_decode c hc, le32_decode b hb⟩,
    ?_, ?_, ?_, ?_, ?_, ?_⟩
  · rw [e0]; simp [encodeCreateUser]
  · rw [e0, e2]; simp [le32]
  · rw [e0, e3]; simp [le32]
  · rw [e2]; simp [encodeCreateUser, le32]
  · rw [e3]; simp [encodeCreateUser, le32]
  · rw [e2, e3]; simp [le32]

/-- C10 witness: the encoders at the arguments used by the test drivers
(credits_per_level 10, mint 50, burn 70). -/
theorem encoders_unambiguous_witness :
    encodeCreateGameConfig 10 = some [0, 10] ∧
    encodeMintCreditsToUser 50 = some (2 :: le32 50) ∧
    decodeLE32 (le32 50) = 50 ∧
    encodeMintCreditsToUser 50 ≠ encodeUserLevelUp 70 :=
  have h := encoders_unambiguous 10 50 70 (by norm_num) (by norm_num [U32_MOD])
    (by norm_num [U32_MOD])
  ⟨h.1.1, h.1.2.2.1, h.2.1.2.2.2.2.1, h.2.2.2.2.2.2.2⟩
